import Mathlib

/-!
Verification of the water-level prediction pipeline of this repository
(`backend/ml_models/water_predictor.py`, and the near-duplicate
`backend/tools/prediction_tool.py`), as a shallow embedding in Lean 4.

Conventions of the embedding:
* Python floats are idealised as rationals (ℚ).  `np.sin` / `np.cos` /
  `np.sqrt` / `np.pi` are abstract ℚ-valued parameters bundled in `Env`,
  since no claim depends on their values.
* Database rows (dicts produced by `PostGISManager.query_groundwater_data`)
  always carry every key; a SQL NULL becomes `Option.none`.
* Fallible Python code (functions whose `try/except` returns `None` or an
  error payload) becomes `Option`-returning Lean functions.
* Fitted sklearn models are deterministic functions once trained; they are
  embedded as abstract functions `List ℚ → ℚ` carried in the state.
-/

/-- One groundwater observation row, as returned by
`PostGISManager.query_groundwater_data` (every key present, values nullable). -/
structure Record where
  state : Option String := none
  district : Option String := none
  category : Option String := none
  water_level : Option ℚ := none
  year : Option ℚ := none
  month : Option ℚ := none
  latitude : Option ℚ := none
  longitude : Option ℚ := none
deriving Repr, DecidableEq

namespace WaterPredictor

/-- Rows that survive `_prepare_features`' target cleaning
(`df.dropna(subset=['water_level'])` and the later
`valid_indices = ~np.isnan(target)`): exactly the rows whose
`water_level` is a (numeric) non-null value.  The surviving rows keep the
input order — `_prepare_features` never sorts `features_df`
(the `sort_values` at water_predictor.py:252 only affects the separate
`df_sorted` frame used to build lag columns). -/
def prepare_rows (data : List Record) : List Record :=
  data.filter (fun r => r.water_level.isSome)

/-- `_time_series_split`'s split point: `int(len(X) * (1 - test_size))` with
the default `test_size = 0.2`.  (`0.8` is slightly above 4/5 as a binary
float, so the Python truncation agrees with `⌊4n/5⌋` here.) -/
def time_series_split_index (n : ℕ) : ℕ := n * 4 / 5

/-- Years of the rows `_time_series_split` assigns to the training split:
the first `split_index` rows of the prepared matrix, in input order. -/
def train_years (data : List Record) : List ℚ :=
  let rows := prepare_rows data
  (rows.take (time_series_split_index rows.length)).filterMap (·.year)

/-- Years of the rows `_time_series_split` assigns to the test split:
the remaining trailing rows, in input order. -/
def test_years (data : List Record) : List ℚ :=
  let rows := prepare_rows data
  (rows.drop (time_series_split_index rows.length)).filterMap (·.year)

/-- `_get_season_numeric`. -/
def get_season_numeric (m : ℕ) : ℕ :=
  if m = 12 ∨ m = 1 ∨ m = 2 then 0
  else if m = 3 ∨ m = 4 ∨ m = 5 then 1
  else if m = 6 ∨ m = 7 ∨ m = 8 ∨ m = 9 then 2
  else if m = 10 ∨ m = 11 then 3
  else 1

/-- `_get_season_name` (the `season_names` dict lookup with default). -/
def get_season_name (m : ℕ) : String :=
  match get_season_numeric m with
  | 0 => "Winter"
  | 1 => "Summer"
  | 2 => "Monsoon"
  | 3 => "Post-Monsoon"
  | _ => "Unknown"

end WaterPredictor

/-! ### Gregorian dates (for `datetime + timedelta(days=30*i)`) -/

/-- Gregorian leap-year rule. -/
def isLeap (y : ℕ) : Bool := y % 4 = 0 && (y % 100 ≠ 0 || y % 400 = 0)

/-- Days in a Gregorian month. -/
def daysInMonth (y m : ℕ) : ℕ :=
  if m = 2 then (if isLeap y then 29 else 28)
  else if m = 4 ∨ m = 6 ∨ m = 9 ∨ m = 11 then 30
  else 31

/-- A calendar date (the date part of a Python `datetime`). -/
structure Date where
  year : ℕ
  month : ℕ
  day : ℕ
deriving Repr, DecidableEq

/-- Successor date. -/
def nextDay (d : Date) : Date :=
  if d.day < daysInMonth d.year d.month then ⟨d.year, d.month, d.day + 1⟩
  else if d.month < 12 then ⟨d.year, d.month + 1, 1⟩
  else ⟨d.year + 1, 1, 1⟩

/-- `d + timedelta(days := n)`. -/
def addDays (d : Date) (n : ℕ) : Date := Nat.iterate nextDay n d

/-- Lexicographic order on the (year, month) pair of a date — the order the
spec's "strictly increasing month/year" talks about. -/
def ymLe (a b : Date) : Prop :=
  a.year < b.year ∨ (a.year = b.year ∧ a.month ≤ b.month)

instance (a b : Date) : Decidable (ymLe a b) := by
  unfold ymLe; infer_instance

theorem ymLe_refl (a : Date) : ymLe a a := Or.inr ⟨rfl, le_refl _⟩

theorem ymLe_trans {a b c : Date} (h1 : ymLe a b) (h2 : ymLe b c) : ymLe a c := by
  rcases h1 with h1 | ⟨e1, m1⟩ <;> rcases h2 with h2 | ⟨e2, m2⟩
  · exact Or.inl (h1.trans h2)
  · exact Or.inl (e2 ▸ h1)
  · exact Or.inl (e1 ▸ h2)
  · exact Or.inr ⟨e1.trans e2, m1.trans m2⟩

/-- One day forward never decreases the (year, month) pair. -/
theorem ymLe_nextDay (d : Date) : ymLe d (nextDay d) := by
  unfold nextDay
  split
  · exact Or.inr ⟨rfl, le_refl _⟩
  · split
    · exact Or.inr ⟨rfl, Nat.le_succ _⟩
    · exact Or.inl (Nat.lt_succ_self _)

/-- Adding days never decreases the (year, month) pair. -/
theorem ymLe_addDays (d : Date) (n : ℕ) : ymLe d (addDays d n) := by
  induction n generalizing d with
  | zero => exact ymLe_refl d
  | succ k ih =>
      have h : addDays d (k + 1) = addDays (nextDay d) k := by
        unfold addDays
        exact Function.iterate_succ_apply nextDay k d
      rw [h]
      exact ymLe_trans (ymLe_nextDay d) (ih (nextDay d))

theorem addDays_add (d : Date) (a b : ℕ) :
    addDays d (a + b) = addDays (addDays d a) b := by
  unfold addDays
  rw [Nat.add_comm a b]
  exact Function.iterate_add_apply nextDay b a d

/-! ### Model trainer (`train_prediction_model` in water_predictor.py) -/

namespace WaterPredictor

/-- Per-candidate evaluation data collected during `train_prediction_model`:
`r2` and `mse` come from the single chronological test split
(`_calculate_metrics`), `rmse` is its error band, and `r2_mean` is the mean
R² over the 5-fold `TimeSeriesSplit` cross-validation
(`_cross_validate_model`; 0.0 when CV itself fails). -/
structure ModelEval where
  r2 : ℚ
  mse : ℚ
  rmse : ℚ
  r2_mean : ℚ
deriving Repr, DecidableEq

/-- `max(model_results.keys(), key=lambda x: ...['cv_scores']['r2_mean'])`:
Python's `max` keeps the earliest element among ties, i.e. replaces the
running best only on a strictly larger key. -/
def select_best_by_cv : List (String × ModelEval) → Option (String × ModelEval)
  | [] => none
  | x :: xs =>
      some (xs.foldl (fun best y => if best.2.r2_mean < y.2.r2_mean then y else best) x)

theorem select_best_by_cv_spec (x : String × ModelEval) (xs : List (String × ModelEval)) :
    ∃ w, select_best_by_cv (x :: xs) = some w ∧ w ∈ x :: xs ∧
      ∀ z ∈ x :: xs, z.2.r2_mean ≤ w.2.r2_mean := by
  induction xs generalizing x with
  | nil =>
      exact ⟨x, rfl, List.mem_singleton.mpr rfl, by
        intro z hz
        rw [List.mem_singleton.mp hz]⟩
  | cons y ys ih =>
      obtain ⟨w, hw, hmem, hbound⟩ :=
        ih (if x.2.r2_mean < y.2.r2_mean then y else x)
      refine ⟨w, ?_, ?_, ?_⟩
      · simpa [select_best_by_cv] using hw
      · rcases List.mem_cons.mp hmem with h | h
        · subst h
          by_cases hxy : x.2.r2_mean < y.2.r2_mean <;>
            simp [hxy, List.mem_cons]
        · exact List.mem_cons.mpr (Or.inr (List.mem_cons.mpr (Or.inr h)))
      · intro z hz
        have hhead : (if x.2.r2_mean < y.2.r2_mean then y else x)
            ∈ (if x.2.r2_mean < y.2.r2_mean then y else x) :: ys :=
          List.mem_cons_self _ _
        have hmax1 : x.2.r2_mean ≤ (if x.2.r2_mean < y.2.r2_mean then y else x).2.r2_mean := by
          by_cases hxy : x.2.r2_mean < y.2.r2_mean
          · simp only [if_pos hxy]; exact le_of_lt hxy
          · simp [hxy]
        have hmax2 : y.2.r2_mean ≤ (if x.2.r2_mean < y.2.r2_mean then y else x).2.r2_mean := by
          by_cases hxy : x.2.r2_mean < y.2.r2_mean
          · simp [hxy]
          · simp only [if_neg hxy]; exact le_of_not_lt hxy
        rcases List.mem_cons.mp hz with h | h
        · exact h ▸ (hmax1.trans (hbound _ hhead))
        · rcases List.mem_cons.mp h with h2 | h2
          · exact h2 ▸ (hmax2.trans (hbound _ hhead))
          · exact hbound _ (List.mem_cons.mpr (Or.inr h2))

/-- `_get_model_candidates`: candidate names in the source's insertion order.
(The fitted estimators themselves stay abstract; only names matter to the
selection logic.) -/
def model_candidates (model_type : String) : List String :=
  (if model_type = "all" ∨ model_type = "random_forest" then ["random_forest"] else []) ++
  (if model_type = "all" ∨ model_type = "gradient_boosting" then ["gradient_boosting"] else []) ++
  (if model_type = "all" ∨ model_type = "linear" then ["linear_regression"] else [])

/-- The trainer-visible mutable state of a `WaterLevelPredictor` instance:
`self.models` (the in-memory model registry, key ↦ chosen algorithm name)
and the `.joblib` files written under the models directory. -/
structure TrainerState where
  models : List (String × String)
  files : List String
deriving Repr, DecidableEq

/-- Result payload of `train_prediction_model` (the fields the claims need). -/
structure TrainResult where
  success : Bool
  error : Option String := none
  best_model : Option String := none
deriving Repr, DecidableEq

/-- `train_prediction_model` (water_predictor.py:32-160).  `data` is the
result of the bounded history query; `fit name` returns the evaluation of
candidate `name` when its `model.fit` succeeds, `none` when fitting raises
(the source logs and skips such candidates).  Returns the result payload
and the updated instance state. -/
def train_prediction_model (st : TrainerState) (region : Option String)
    (model_type : String) (data : List Record)
    (fit : String → Option ModelEval) : TrainResult × TrainerState :=
  if data.length < 100 then
    ({ success := false
       error := some ("Insufficient data for training (need at least 100 records, got "
         ++ toString data.length ++ ")") }, st)
  else
    -- `_prepare_features` + the `X is None or len(X) < 50` guard
    let rows := prepare_rows data
    if rows.length < 50 then
      ({ success := false
         error := some "Feature preparation failed or insufficient valid data" }, st)
    else
      let results := (model_candidates model_type).filterMap
        (fun n => (fit n).map (fun e => (n, e)))
      match select_best_by_cv results with
      | none =>
          ({ success := false, error := some "All model training attempts failed" }, st)
      | some best =>
          let key := (region.getD "national")
          ({ success := true, best_model := some best.1 },
           { models := (key, best.1) :: st.models
             files := (best.1 ++ "_" ++ key ++ ".joblib")
               :: ("metadata_" ++ key ++ ".joblib") :: st.files })

end WaterPredictor

/-! ### The duplicate trainer/forecaster (`tools/prediction_tool.py`) -/

namespace PredictionTool

/-- `best_model_name = min(model_performance.keys(), key=lambda x: ...['mse'])`
(prediction_tool.py:98): the duplicate trainer picks the candidate with the
lowest *single test-split* MSE; no cross-validation is computed at all, so
the `r2_mean` field of the shared evaluation record is ignored. -/
def select_best_by_mse : List (String × WaterPredictor.ModelEval) →
    Option (String × WaterPredictor.ModelEval)
  | [] => none
  | x :: xs =>
      some (xs.foldl (fun best y => if y.2.mse < best.2.mse then y else best) x)

/-- How `predict_water_levels` (prediction_tool.py:236-247) obtains a model. -/
inductive ModelResolution where
  | useMemory
  | loadFromDisk
  | trainNew
deriving Repr, DecidableEq

/-- prediction_tool.py:236-247: use the in-memory model for the state if
present; else load `random_forest_{state}.joblib` if that file exists; else
**train a brand-new model** for the state.  There is no "national" fallback
and no model-unavailable failure. -/
def resolve_model (models : List String) (diskFiles : List String)
    (state : String) : ModelResolution :=
  if state ∈ models then .useMemory
  else if ("random_forest_" ++ state ++ ".joblib") ∈ diskFiles then .loadFromDisk
  else .trainNew

end PredictionTool

/-! ### Forecaster (`predict_water_levels` in water_predictor.py) -/

/-- Abstract numeric primitives the source takes from numpy.  No claim
depends on their values, so they are parameters of the embedding. -/
structure Env where
  pi : ℚ
  sin : ℚ → ℚ
  cos : ℚ → ℚ
  sqrt : ℚ → ℚ

namespace WaterPredictor

/-- `LabelEncoder.transform([v])[0]` over the fitted vocabulary
`classes`: the index of `v`, or `none` for the `ValueError` raised on an
unseen label. -/
def le_transform : List String → String → Option ℕ
  | [], _ => none
  | c :: cs, v => if c = v then some 0 else (le_transform cs v).map (· + 1)

/-- The `try: transform([v]) except ValueError: transform(['Unknown'])`
pattern of `_create_prediction_features` (water_predictor.py:711-729).
A `none` result means even `'Unknown'` is absent from the vocabulary, so
the second `transform` raises as well and the outer handler aborts the
whole feature construction. -/
def encode_with_unknown (classes : List String) (v : String) : Option ℕ :=
  match le_transform classes v with
  | some i => some i
  | none => le_transform classes "Unknown"

/-- The forecaster-visible state of a `WaterLevelPredictor` instance:
in-memory models, persisted models (`_load_model` needs both the
`random_forest_{key}.joblib` and `metadata_{key}.joblib` files, so `disk`
lists the keys for which both exist), the fitted estimators as abstract
predict functions, the training RMSE reachable through
`model_metadata[key]['metrics']['rmse']` (`none` when any link of that
chain is missing), the training-time feature column order, the fitted
label-encoder vocabularies and the fitted scaler transform. -/
structure PredictorState where
  models : List String
  disk : List String
  predictFn : String → List ℚ → ℚ
  rmse_metadata : String → Option ℚ
  feature_columns : List String
  le_state : Option (List String) := none
  le_district : Option (List String) := none
  le_category : Option (List String) := none
  scale : Option (List ℚ → List ℚ) := none

/-- Model resolution in `predict_water_levels` (water_predictor.py:583-598):
use the in-memory state model, else load it from disk, else the in-memory
national model, else load that, else give up. -/
def resolve_model (st : PredictorState) (state : String) : Option String :=
  if state ∈ st.models then some state
  else if state ∈ st.disk then some state
  else if "national" ∈ st.models then some "national"
  else if "national" ∈ st.disk then some "national"
  else none

/-- `'encoded' not in name` (water_predictor.py:759): selects the vector
positions the scaler applies to. -/
def name_is_numerical (s : String) : Bool := (s.splitOn "encoded").length = 1

/-- The numerical slice of the feature vector, in order. -/
def numerical_values (names : List String) (vec : List ℚ) : List ℚ :=
  ((names.zip vec).filter (fun p => name_is_numerical p.1)).map (·.2)

/-- `feature_vector[numerical_indices] = scaled`: write the scaled values
back into the numerical positions, leaving encoded positions untouched. -/
def scatter_scaled : List String → List ℚ → List ℚ → List ℚ
  | n :: ns, v :: vs, scaled =>
      if name_is_numerical n then
        match scaled with
        | s :: ss => s :: scatter_scaled ns vs ss
        | [] => v :: scatter_scaled ns vs []
      else v :: scatter_scaled ns vs scaled
  | _, _, _ => []

/-- All-or-nothing collection of optional values: a Python `None` among
them makes the downstream numeric code raise, which the outer handler
converts into a failed feature construction. -/
def seq_options : List (Option ℚ) → Option (List ℚ)
  | [] => some []
  | o :: os =>
      match o, seq_options os with
      | some v, some vs => some (v :: vs)
      | _, _ => none

/-- One encoded categorical feature: absent encoder contributes nothing;
an encoder whose vocabulary lacks both the value and `'Unknown'` aborts. -/
def encoded_feature (enc : Option (List String)) (nm : String) (v : String) :
    Option (List (String × Option ℚ)) :=
  match enc with
  | none => some []
  | some classes => (encode_with_unknown classes v).map
      (fun i => [(nm, some ((i : ℕ) : ℚ))])

/-- `_create_prediction_features` (water_predictor.py:681-769).  Returns the
feature vector for one forecast step, or `none` when the step's
construction raises and is caught by the function's own handler.  Values of
type `Option ℚ` inside the feature dict model Python `None`s (null
latitude/longitude/water_level from the database): a null
latitude/longitude raises at the `distance_from_center` arithmetic, a null
in the rolling-mean window raises inside `np.mean`, and a null lag value
poisons the assembled vector and raises in the scaler's float conversion —
in every case the step fails rather than the call. -/
def create_prediction_features (env : Env) (st : PredictorState)
    (history : List Record) (state district : String) (pdate : Date) :
    Option (List ℚ) :=
  -- recent_data = historical_data[0] if historical_data else {}
  let recent := history.head?
  -- dict.get('latitude', 20.5937): DB rows always carry the key, so the
  -- default applies only to the empty-history edge case.
  let lat : Option ℚ := match recent with
    | none => some (205937 / 10000)
    | some r => r.latitude
  let lon : Option ℚ := match recent with
    | none => some (789629 / 10000)
    | some r => r.longitude
  -- dict.get('category', 'Unknown'); a null category fails the first
  -- transform and lands in the same except-branch as an unseen one.
  let category := (recent.bind (·.category)).getD "Unknown"
  match lat, lon with
  | some la, some lo => do
      let dist := env.sqrt ((la - 205937 / 10000) ^ 2 + (lo - 789629 / 10000) ^ 2)
      let base : List (String × Option ℚ) :=
        [("year", some ((pdate.year : ℚ))),
         ("years_since_2000", some ((pdate.year : ℚ) - 2000)),
         ("month", some ((pdate.month : ℚ))),
         ("season", some ((get_season_numeric pdate.month : ℚ))),
         ("month_sin", some (env.sin (2 * env.pi * (pdate.month : ℚ) / 12))),
         ("month_cos", some (env.cos (2 * env.pi * (pdate.month : ℚ) / 12))),
         ("latitude", some la),
         ("longitude", some lo),
         ("distance_from_center", some dist)]
      let encS ← encoded_feature st.le_state "state_encoded" state
      let encD ← encoded_feature st.le_district "district_encoded" district
      let encC ← encoded_feature st.le_category "category_encoded" category
      let lags : List (String × Option ℚ) :=
        (if history.length ≥ 1 then
          [("water_level_lag_1", (history.get? 0).bind (·.water_level))] else []) ++
        (if history.length ≥ 2 then
          [("water_level_lag_2", (history.get? 1).bind (·.water_level))] else [])
      let roll3 ← if history.length ≥ 3 then
          (seq_options ((history.take 3).map (·.water_level))).map
            (fun ls => [("rolling_mean_3", (some (ls.sum / 3) : Option ℚ))])
        else some []
      let roll5 ← if history.length ≥ 5 then
          (seq_options ((history.take 5).map (·.water_level))).map
            (fun ls => [("rolling_mean_5", (some (ls.sum / 5) : Option ℚ))])
        else some []
      let feats := base ++ encS ++ encD ++ encC ++ lags ++ roll3 ++ roll5
      -- vector assembly in training column order, 0 for unknown names
      let entries := st.feature_columns.map (fun nm =>
        match feats.lookup nm with
        | some v => v
        | none => some 0)
      let vec ← seq_options entries
      match st.scale with
      | none => some vec
      | some f =>
          some (scatter_scaled st.feature_columns vec
            (f (numerical_values st.feature_columns vec)))
  | _, _ => none

/-- `round(x, 2)`.  Python rounds half-to-even; over ℚ we round
`100·x` to the nearest integer half-up (`⌊100·x + 1/2⌋`), which can differ
only on exact ties — both are monotone roundings of `100·x`, and only
monotonicity matters to the claims.  (`Rat.floor` is the computable floor;
it agrees with `Int.floor` by definition of ℚ's `FloorRing` instance.) -/
def round2 (x : ℚ) : ℚ := ((Rat.floor (100 * x + 1 / 2) : ℤ) : ℚ) / 100

theorem rat_floor_eq_floor (x : ℚ) : Rat.floor x = Int.floor x := rfl

theorem round2_mono {x y : ℚ} (h : x ≤ y) : round2 x ≤ round2 y := by
  unfold round2
  have hr : Rat.floor (100 * x + 1 / 2) ≤ Rat.floor (100 * y + 1 / 2) := by
    rw [rat_floor_eq_floor, rat_floor_eq_floor]
    exact Int.floor_mono (by linarith)
  have hc : ((Rat.floor (100 * x + 1 / 2) : ℤ) : ℚ)
      ≤ ((Rat.floor (100 * y + 1 / 2) : ℤ) : ℚ) := by
    exact_mod_cast hr
  linarith

/-- `_calculate_prediction_confidence` (water_predictor.py:771-788).
`rmse_meta` is the value reached by
`model_metadata.get(model_key, {}).get('metrics', {}).get('rmse', 5.0)`,
`none` standing for any missing link (then the 5.0 default applies).  The
function's own `except` fallback `(prediction - 5, prediction + 5)` is
unreachable here — the embedded computation is total — and is in any case
of the same symmetric shape. -/
def calculate_prediction_confidence (p : ℚ) (rmse_meta : Option ℚ) : ℚ × ℚ :=
  let rmse := rmse_meta.getD 5
  let confidence_range := 196 / 100 * rmse
  (p - confidence_range, p + confidence_range)

/-- Usable recent levels in `_assess_prediction_quality`:
`[item.get('water_level', 0) for item in historical_data[:5] if
item.get('water_level')]` — Python truthiness drops both nulls and exact
zeros. -/
def usable_recent_levels (history : List Record) : List ℚ :=
  (history.take 5).filterMap
    (fun r => r.water_level.bind (fun w => if w = 0 then none else some w))

/-- `_assess_prediction_quality` (water_predictor.py:790-817).  The source
compares `|p - avg|` against `np.std` and `2*np.std`; both sides being
nonnegative, this is equivalent to comparing `(p - avg)^2` against the
variance and `4*`variance, which keeps the embedding inside ℚ.  The
`except` fallback `"medium"` is unreachable (the embedded computation is
total; ℚ division never raises and the divisor is nonzero anyway). -/
def assess_prediction_quality (p : ℚ) (history : List Record) : String :=
  if history.isEmpty then "low"
  else
    let recent := usable_recent_levels history
    if recent.isEmpty then "low"
    else
      let avg := recent.sum / (recent.length : ℚ)
      let variance := (recent.map (fun x => (x - avg) ^ 2)).sum / (recent.length : ℚ)
      if (p - avg) ^ 2 ≤ variance then "high"
      else if (p - avg) ^ 2 ≤ 4 * variance then "medium"
      else "low"

/-- One element of the `predictions` list built by `predict_water_levels`
(water_predictor.py:638-647). -/
structure PredRecord where
  date : Date
  year : ℕ
  month : ℕ
  predicted_water_level : ℚ
  confidence_lower : ℚ
  confidence_upper : ℚ
  prediction_quality : String
  season : String
deriving Repr, DecidableEq

/-- Result payload of `predict_water_levels` (the fields the claims need).
`prediction_generated` records the `datetime.now().isoformat()` stamped on
the success payload. -/
structure PredictResult where
  success : Bool
  error : Option String := none
  predictions : List PredRecord := []
  prediction_generated : Option Date := none

/-- `predict_water_levels` (water_predictor.py:576-679).  `now` is the
wall clock (`datetime.now()`), used as the start date only when the caller
passes none; `history` is the bounded `(state, district)` query result. -/
def predict_water_levels (env : Env) (st : PredictorState)
    (state district : String) (prediction_months : ℕ)
    (start_date : Option Date) (now : Date) (history : List Record) :
    PredictResult :=
  match resolve_model st state with
  | none =>
      { success := false
        error := some ("No trained model available for " ++ state ++ " or national level") }
  | some model_key =>
      if history.isEmpty then
        { success := false
          error := some ("No historical data available for " ++ district ++ ", " ++ state) }
      else
        let start := start_date.getD now
        let predictions := (List.range prediction_months).filterMap (fun i =>
          let prediction_date := addDays start (30 * i)
          (create_prediction_features env st history state district prediction_date).map
            (fun fv =>
              let predicted_level := st.predictFn model_key fv
              let ci := calculate_prediction_confidence predicted_level
                (st.rmse_metadata model_key)
              { date := prediction_date
                year := prediction_date.year
                month := prediction_date.month
                predicted_water_level := round2 predicted_level
                confidence_lower := round2 ci.1
                confidence_upper := round2 ci.2
                prediction_quality := assess_prediction_quality predicted_level history
                season := get_season_name prediction_date.month }))
        { success := true
          predictions := predictions
          prediction_generated := some now }

end WaterPredictor

/-! ### Shared helper lemmas and concrete objects -/

namespace WaterPredictor

theorem le_transform_isSome_iff (classes : List String) (v : String) :
    (le_transform classes v).isSome ↔ v ∈ classes := by
  induction classes with
  | nil => simp [le_transform]
  | cons c cs ih =>
      by_cases h : c = v
      · simp [le_transform, h]
      · simp [le_transform, h, ih, Ne.symm h]

theorem le_transform_eq_none_of_not_mem {classes : List String} {v : String}
    (h : v ∉ classes) : le_transform classes v = none :=
  Option.not_isSome_iff_eq_none.mp (fun hs => h ((le_transform_isSome_iff classes v).mp hs))

theorem filterMap_length_of_isSome {α β : Type} (f : α → Option β) :
    ∀ l : List α, (∀ a ∈ l, (f a).isSome) → (l.filterMap f).length = l.length := by
  intro l
  induction l with
  | nil => intro _; rfl
  | cons x xs ih =>
      intro h
      obtain ⟨b, hb⟩ := Option.isSome_iff_exists.mp (h x (List.mem_cons_self x xs))
      rw [List.filterMap_cons_some hb, List.length_cons, List.length_cons,
        ih (fun a ha => h a (List.mem_cons_of_mem x ha))]

end WaterPredictor

/-- Stepping a 30-day grid forward never decreases the (year, month) pair. -/
theorem ymLe_addDays_mul (start : Date) {i j : ℕ} (hij : i ≤ j) :
    ymLe (addDays start (30 * i)) (addDays start (30 * j)) := by
  have h : 30 * j = 30 * i + 30 * (j - i) := by omega
  rw [h, addDays_add]
  exact ymLe_addDays _ _

/-- A constant stand-in for the abstract numpy primitives, used to evaluate
the pipeline at concrete inputs. -/
def env_const : Env := { pi := 0, sin := fun _ => 0, cos := fun _ => 0, sqrt := fun _ => 0 }

/-- A concrete historical row. -/
def hrec : Record :=
  { water_level := some 10, year := some 2020, month := some 6,
    latitude := some 20, longitude := some 78, category := some "Safe" }

/-- A concrete predictor state with the Gujarat model in memory. -/
def pst_simple : WaterPredictor.PredictorState :=
  { models := ["Gujarat"], disk := [],
    predictFn := fun _ _ => 10,
    rmse_metadata := fun _ => some 2,
    feature_columns := ["year"] }

/-- A concrete predictor state with nothing trained or persisted. -/
def pst_empty : WaterPredictor.PredictorState :=
  { models := [], disk := [],
    predictFn := fun _ _ => 0,
    rmse_metadata := fun _ => none,
    feature_columns := [] }

/-! ### Claim C2 -/

/-- Claim C2: for every input with fewer than 100 historical records,
`train_prediction_model` returns `success = false` with an error message
naming the 100-record threshold, no model file is written, and the
in-memory model registry is left unchanged (the whole instance state is). -/
theorem C2_insufficient_data (st : WaterPredictor.TrainerState) (region : Option String)
    (model_type : String) (data : List Record)
    (fit : String → Option WaterPredictor.ModelEval) (h : data.length < 100) :
    (WaterPredictor.train_prediction_model st region model_type data fit).1.success = false ∧
    (WaterPredictor.train_prediction_model st region model_type data fit).1.error
      = some ("Insufficient data for training (need at least 100 records, got "
        ++ toString data.length ++ ")") ∧
    (WaterPredictor.train_prediction_model st region model_type data fit).2 = st := by
  simp [WaterPredictor.train_prediction_model, h]

/-- Witness for C2 at the empty record list. -/
theorem C2_insufficient_data_witness :
    ([] : List Record).length < 100 ∧
    (WaterPredictor.train_prediction_model ⟨[], []⟩ none "all" []
      (fun _ => none)).1.success = false ∧
    (WaterPredictor.train_prediction_model ⟨[], []⟩ none "all" []
      (fun _ => none)).2 = ⟨[], []⟩ := by
  have h := C2_insufficient_data ⟨[], []⟩ none "all" [] (fun _ => none) (by decide)
  exact ⟨by decide, h.1, h.2.2⟩

/-! ### Claim C8 -/

/-- Claim C8: with a fixed state (loaded model, encoders, scaler), a fixed
historical snapshot and a fixed start date, two invocations of
`predict_water_levels` — differing only in the wall clock — return
identical prediction lists: inference has no hidden dependence on the
clock and no randomness. -/
theorem C8_inference_deterministic (env : Env) (st : WaterPredictor.PredictorState)
    (state district : String) (months : ℕ) (t : Date) (now1 now2 : Date)
    (history : List Record) :
    (WaterPredictor.predict_water_levels env st state district months (some t) now1
      history).predictions
      = (WaterPredictor.predict_water_levels env st state district months (some t) now2
        history).predictions := by
  unfold WaterPredictor.predict_water_levels
  cases WaterPredictor.resolve_model st state with
  | none => rfl
  | some k => by_cases h : history.isEmpty <;> simp [h]

/-! ### Claim C9 -/

/-- Claim C9: `_calculate_prediction_confidence` always returns an interval
exactly symmetric about the prediction, `(p - c, p + c)` with
`c = 1.96 × rmse ≥ 0` (rmse defaulting to 5.0 when the metadata chain is
missing), so the midpoint equals the prediction.  The hypothesis records
the invariant that a stored training RMSE is nonnegative (it is
`round(sqrt(mse), 4)` in `_calculate_metrics`). -/
theorem C9_confidence_symmetric (p : ℚ) (rmse_meta : Option ℚ)
    (h : ∀ r, rmse_meta = some r → 0 ≤ r) :
    (WaterPredictor.calculate_prediction_confidence p rmse_meta).2 - p
      = p - (WaterPredictor.calculate_prediction_confidence p rmse_meta).1 ∧
    p - (WaterPredictor.calculate_prediction_confidence p rmse_meta).1
      = 196 / 100 * rmse_meta.getD 5 ∧
    0 ≤ p - (WaterPredictor.calculate_prediction_confidence p rmse_meta).1 ∧
    ((WaterPredictor.calculate_prediction_confidence p rmse_meta).1
      + (WaterPredictor.calculate_prediction_confidence p rmse_meta).2) / 2 = p := by
  have hc : WaterPredictor.calculate_prediction_confidence p rmse_meta
      = (p - 196 / 100 * rmse_meta.getD 5, p + 196 / 100 * rmse_meta.getD 5) := rfl
  have h5 : 0 ≤ rmse_meta.getD 5 := by
    cases rmse_meta with
    | none => norm_num
    | some r => exact h r rfl
  have hprod : 0 ≤ 196 / 100 * rmse_meta.getD 5 :=
    mul_nonneg (by norm_num) h5
  rw [hc]
  refine ⟨by ring, by ring, by simp only []; linarith, by ring⟩

/-- Witness for C9 at a concrete prediction and stored RMSE. -/
theorem C9_confidence_symmetric_witness :
    (WaterPredictor.calculate_prediction_confidence 7 (some 2)).2 - 7
      = 7 - (WaterPredictor.calculate_prediction_confidence 7 (some 2)).1 ∧
    0 ≤ 7 - (WaterPredictor.calculate_prediction_confidence 7 (some 2)).1 := by
  have h := C9_confidence_symmetric 7 (some 2)
    (fun r hr => by cases hr; norm_num)
  exact ⟨h.1, h.2.2.1⟩

/-! ### Claim C10 -/

/-- Claim C10: `_assess_prediction_quality` is total and returns only
`"high"`, `"medium"` or `"low"`; it returns `"low"` on an empty snapshot
and whenever the snapshot has no usable (non-null, non-zero) water level. -/
theorem C10_quality_total (p : ℚ) (history : List Record) :
    (WaterPredictor.assess_prediction_quality p history = "high" ∨
     WaterPredictor.assess_prediction_quality p history = "medium" ∨
     WaterPredictor.assess_prediction_quality p history = "low") ∧
    (history = [] → WaterPredictor.assess_prediction_quality p history = "low") ∧
    ((∀ r ∈ history, r.water_level = none ∨ r.water_level = some 0) →
      WaterPredictor.assess_prediction_quality p history = "low") := by
  refine ⟨?_, ?_, ?_⟩
  · unfold WaterPredictor.assess_prediction_quality
    dsimp only
    split
    · exact Or.inr (Or.inr rfl)
    · split
      · exact Or.inr (Or.inr rfl)
      · split
        · exact Or.inl rfl
        · split
          · exact Or.inr (Or.inl rfl)
          · exact Or.inr (Or.inr rfl)
  · intro h; subst h; rfl
  · intro h
    have hrec : WaterPredictor.usable_recent_levels history = [] := by
      rw [WaterPredictor.usable_recent_levels, List.filterMap_eq_nil_iff]
      intro r hr
      rcases h r (List.take_subset _ _ hr) with h1 | h1 <;> simp [h1]
    simp [WaterPredictor.assess_prediction_quality, hrec]

/-- Witness for C10: empty and all-zero snapshots rate `"low"`. -/
theorem C10_quality_total_witness :
    WaterPredictor.assess_prediction_quality 3 [] = "low" ∧
    WaterPredictor.assess_prediction_quality 3 [{ water_level := some 0 }] = "low" := by
  exact ⟨(C10_quality_total 3 []).2.1 rfl,
    (C10_quality_total 3 [{ water_level := some 0 }]).2.2
      (by intro r hr; simp at hr; subst hr; exact Or.inr rfl)⟩

/-! ### Claim C3 -/

/-- Test-split/CV evaluation of a candidate whose single test-split MSE is
best but whose mean cross-validated R² is worst. -/
def cand_rf : WaterPredictor.ModelEval :=
  { r2 := 9 / 10, mse := 1, rmse := 1, r2_mean := 1 / 10 }

/-- Evaluation of a candidate with worse test-split MSE but the highest
mean cross-validated R². -/
def cand_gb : WaterPredictor.ModelEval :=
  { r2 := 1 / 2, mse := 4, rmse := 2, r2_mean := 9 / 10 }

/-- Claim C3 is false for the duplicate trainer
(`tools/prediction_tool.py:98`): with two fitted candidates, it selects
`random_forest` because its single test-split MSE is lowest, even though
its mean cross-validated R² (1/10) is strictly below `gradient_boosting`'s
(9/10) — selection by best single test-split score, not by highest mean
CV R². -/
theorem C3_counterexample :
    PredictionTool.select_best_by_mse
        [("random_forest", cand_rf), ("gradient_boosting", cand_gb)]
      = some ("random_forest", cand_rf) ∧
    cand_rf.r2_mean < cand_gb.r2_mean := by
  constructor
  · rfl
  · show (1 : ℚ) / 10 < 9 / 10
    norm_num

/-- Claim C3 (amended): the trainer of `ml_models/water_predictor.py` does
select a fitted candidate whose mean cross-validated R² is maximal
(earliest wins ties), independent of the single test-split scores; the
duplicate trainer of `tools/prediction_tool.py` instead picks the candidate
with the lowest single test-split MSE. -/
theorem C3_amended_select_by_cv (st : WaterPredictor.TrainerState)
    (region : Option String) (model_type : String) (data : List Record)
    (fit : String → Option WaterPredictor.ModelEval)
    (h100 : ¬ data.length < 100)
    (h50 : ¬ (WaterPredictor.prepare_rows data).length < 50)
    (x : String × WaterPredictor.ModelEval) (xs : List (String × WaterPredictor.ModelEval))
    (hres : (WaterPredictor.model_candidates model_type).filterMap
        (fun n => (fit n).map (fun e => (n, e))) = x :: xs) :
    ∃ w ∈ x :: xs,
      (WaterPredictor.train_prediction_model st region model_type data fit).1.best_model
        = some w.1 ∧
      ∀ z ∈ x :: xs, z.2.r2_mean ≤ w.2.r2_mean := by
  obtain ⟨w, hw, hmem, hbound⟩ := WaterPredictor.select_best_by_cv_spec x xs
  refine ⟨w, hmem, ?_, hbound⟩
  simp only [WaterPredictor.train_prediction_model, if_neg h100, if_neg h50, hres, hw]

/-- Witness for C3 (amended) at a concrete run: 100 valid records, all
three candidates fit, `gradient_boosting` has the highest mean CV R². -/
theorem C3_amended_select_by_cv_witness :
    ∃ w ∈ [("random_forest", cand_rf), ("gradient_boosting", cand_gb),
        ("linear_regression", cand_rf)],
      (WaterPredictor.train_prediction_model ⟨[], []⟩ none "all"
          (List.replicate 100 { water_level := some 1, year := some 2015 })
          (fun n => if n = "random_forest" then some cand_rf
            else if n = "gradient_boosting" then some cand_gb
            else some cand_rf)).1.best_model = some w.1 ∧
      ∀ z ∈ [("random_forest", cand_rf), ("gradient_boosting", cand_gb),
          ("linear_regression", cand_rf)],
        z.2.r2_mean ≤ w.2.r2_mean := by
  have h := C3_amended_select_by_cv ⟨[], []⟩ none "all"
    (List.replicate 100 { water_level := some 1, year := some 2015 })
    (fun n => if n = "random_forest" then some cand_rf
      else if n = "gradient_boosting" then some cand_gb
      else some cand_rf)
    (by decide) (by decide)
    ("random_forest", cand_rf)
    [("gradient_boosting", cand_gb), ("linear_regression", cand_rf)]
    (by rfl)
  exact h

/-! ### Claim C7 -/

/-- Claim C7 is false for the duplicate forecaster
(`tools/prediction_tool.py:236-247`): with no state model in memory and no
state model file on disk it trains a brand-new model instead of failing —
even when a national model sits in memory, since it has no national
fallback at all. -/
theorem C7_counterexample :
    PredictionTool.resolve_model ["national"] [] "Gujarat"
        = PredictionTool.ModelResolution.trainNew ∧
    PredictionTool.resolve_model [] [] "Gujarat"
        = PredictionTool.ModelResolution.trainNew := by
  exact ⟨rfl, rfl⟩

/-- Claim C7 (amended): the forecaster of `ml_models/water_predictor.py`
resolves the model in the claimed order — state-specific (memory, then
disk), then "national" (memory, then disk) — and, when neither exists,
returns `success = false` with the model-unavailable error and no
predictions, without training anything; the duplicate forecaster of
`tools/prediction_tool.py` instead trains a new model in that situation. -/
theorem C7_amended_resolution_order :
    (∀ (st : WaterPredictor.PredictorState) (s : String),
      s ∈ st.models ∨ s ∈ st.disk → WaterPredictor.resolve_model st s = some s) ∧
    (∀ (st : WaterPredictor.PredictorState) (s : String),
      s ∉ st.models → s ∉ st.disk →
      ("national" ∈ st.models ∨ "national" ∈ st.disk) →
      WaterPredictor.resolve_model st s = some "national") ∧
    (∀ (env : Env) (st : WaterPredictor.PredictorState) (s d : String) (m : ℕ)
        (t : Option Date) (now : Date) (h : List Record),
      s ∉ st.models → s ∉ st.disk → "national" ∉ st.models → "national" ∉ st.disk →
      (WaterPredictor.predict_water_levels env st s d m t now h).success = false ∧
      (WaterPredictor.predict_water_levels env st s d m t now h).predictions = [] ∧
      (WaterPredictor.predict_water_levels env st s d m t now h).error
        = some ("No trained model available for " ++ s ++ " or national level")) := by
  refine ⟨?_, ?_, ?_⟩
  · intro st s h
    by_cases h1 : s ∈ st.models
    · simp [WaterPredictor.resolve_model, h1]
    · simp [WaterPredictor.resolve_model, h1, h.resolve_left h1]
  · intro st s h1 h2 h3
    rcases h3 with h3 | h3 <;>
      simp [WaterPredictor.resolve_model, h1, h2, h3]
  · intro env st s d m t now h h1 h2 h3 h4
    have hres : WaterPredictor.resolve_model st s = none := by
      simp [WaterPredictor.resolve_model, h1, h2, h3, h4]
    refine ⟨?_, ?_, ?_⟩ <;>
      simp [WaterPredictor.predict_water_levels, hres]

/-- Witness for C7 (amended) on an empty predictor state. -/
theorem C7_amended_resolution_order_witness :
    (WaterPredictor.predict_water_levels env_const pst_empty "Gujarat" "Rajkot" 3
      none ⟨2024, 1, 1⟩ []).success = false ∧
    (WaterPredictor.predict_water_levels env_const pst_empty "Gujarat" "Rajkot" 3
      none ⟨2024, 1, 1⟩ []).predictions = [] := by
  have h := C7_amended_resolution_order.2.2 env_const pst_empty "Gujarat" "Rajkot" 3
    none ⟨2024, 1, 1⟩ []
    (by simp [pst_empty]) (by simp [pst_empty]) (by simp [pst_empty]) (by simp [pst_empty])
  exact ⟨h.1, h.2.1⟩

/-! ### Claim C1 -/

/-- A valid observation row with the given year. -/
def c1rec (y : ℚ) : Record := { water_level := some 1, year := some y }

/-- A 100-row history whose first row is the most recent year: nothing in
the pipeline sorts it (`query_groundwater_data` has no ORDER BY, and
`_prepare_features` leaves the feature matrix in input order). -/
def c1_data : List Record :=
  c1rec 2020 :: (List.replicate 79 (c1rec 2010) ++ List.replicate 20 (c1rec 2000))

/-- Claim C1: the chronological-split invariant fails on the code.
`_time_series_split` cuts the feature matrix positionally at
`int(0.8·n)` without any sort by year, so on this 100-row input (large
enough to pass both training-size guards) the training split contains year
2020 while the whole test split is year 2000 < 2020 — test timestamps are
not ≥ all training timestamps.  This contradicts the function's own
docstring ("Split data chronologically for time series"), which holds only
under a sortedness precondition nothing establishes. -/
theorem C1_split_not_chronological :
    c1_data.length = 100 ∧
    (WaterPredictor.prepare_rows c1_data).length = 100 ∧
    (2020 : ℚ) ∈ WaterPredictor.train_years c1_data ∧
    (2000 : ℚ) ∈ WaterPredictor.test_years c1_data ∧
    (2000 : ℚ) < 2020 := by decide

/-! ### Claim C5 -/

set_option maxRecDepth 8000 in
/-- Claim C5 is false as stated: the forecast grid is
`start + timedelta(days=30*i)`, and two consecutive 30-day steps can land
in the same calendar month.  Starting 2024-01-01 with a 2-month horizon,
both predictions carry (year, month) = (2024, 1) — the pairs are not
strictly increasing. -/
theorem C5_counterexample :
    ((WaterPredictor.predict_water_levels env_const pst_simple "Gujarat" "Rajkot" 2
      (some ⟨2024, 1, 1⟩) ⟨2025, 6, 15⟩ [hrec]).predictions.map
        (fun r => (r.year, r.month))) = [(2024, 1), (2024, 1)] := by decide

/-- Claim C5 (amended): a successful forecast call requesting N months
returns exactly N prediction records whenever feature construction
succeeds at every step (and drops exactly the failing steps otherwise),
and the (year, month) pairs of successive predictions are lexicographically
non-decreasing — but not strictly increasing in general, since a 30-day
step need not cross a month boundary. -/
theorem C5_amended_horizon (env : Env) (st : WaterPredictor.PredictorState)
    (state district : String) (months : ℕ) (t : Option Date) (now : Date)
    (history : List Record) (model_key : String)
    (hres : WaterPredictor.resolve_model st state = some model_key)
    (hne : history.isEmpty = false)
    (hok : ∀ i < months,
      (WaterPredictor.create_prediction_features env st history state district
        (addDays (t.getD now) (30 * i))).isSome) :
    (WaterPredictor.predict_water_levels env st state district months t now
        history).predictions.length = months ∧
    List.Pairwise (fun a b : WaterPredictor.PredRecord =>
        a.year < b.year ∨ (a.year = b.year ∧ a.month ≤ b.month))
      (WaterPredictor.predict_water_levels env st state district months t now
        history).predictions := by
  unfold WaterPredictor.predict_water_levels
  rw [hres]
  simp only [hne, Bool.false_eq_true, if_false]
  constructor
  · rw [WaterPredictor.filterMap_length_of_isSome _ _ ?_]
    · exact List.length_range months
    · intro i hi
      obtain ⟨fv, hfv⟩ :=
        Option.isSome_iff_exists.mp (hok i (List.mem_range.mp hi))
      simp [hfv]
  · refine List.Pairwise.filterMap _ ?_ (List.pairwise_lt_range months)
    intro i j hij b hb b' hb'
    rw [Option.mem_def] at hb hb'
    obtain ⟨fv, hfv, hbg⟩ := Option.map_eq_some'.mp hb
    obtain ⟨fv', hfv', hbg'⟩ := Option.map_eq_some'.mp hb'
    subst hbg
    subst hbg'
    exact ymLe_addDays_mul (t.getD now) (le_of_lt hij)

/-- Witness for C5 (amended) at the concrete 2-month run. -/
theorem C5_amended_horizon_witness :
    (WaterPredictor.predict_water_levels env_const pst_simple "Gujarat" "Rajkot" 2
      (some ⟨2024, 1, 1⟩) ⟨2025, 6, 15⟩ [hrec]).predictions.length = 2 := by
  have h := C5_amended_horizon env_const pst_simple "Gujarat" "Rajkot" 2
    (some ⟨2024, 1, 1⟩) ⟨2025, 6, 15⟩ [hrec] "Gujarat" (by decide) (by decide)
    (by intro i hi; interval_cases i <;> decide)
  exact h.1

/-! ### Claim C4 -/

/-- Claim C4: every prediction record produced by `predict_water_levels`
satisfies `confidence_lower ≤ predicted_water_level ≤ confidence_upper`,
the bounds being the (rounded) `prediction ± 1.96 × RMSE` interval of
`_calculate_prediction_confidence`.  The hypothesis records the metadata
invariant that a stored training RMSE is nonnegative (it is
`round(sqrt(mse), 4)` in `_calculate_metrics`, and persisted as such). -/
theorem C4_confidence_interval (env : Env) (st : WaterPredictor.PredictorState)
    (state district : String) (months : ℕ) (t : Option Date) (now : Date)
    (history : List Record) (r : WaterPredictor.PredRecord)
    (hmeta : ∀ k v, st.rmse_metadata k = some v → 0 ≤ v)
    (hr : r ∈ (WaterPredictor.predict_water_levels env st state district months t now
      history).predictions) :
    r.confidence_lower ≤ r.predicted_water_level ∧
    r.predicted_water_level ≤ r.confidence_upper := by
  unfold WaterPredictor.predict_water_levels at hr
  cases hres : WaterPredictor.resolve_model st state with
  | none => rw [hres] at hr; simp at hr
  | some model_key =>
      rw [hres] at hr
      by_cases hne : history.isEmpty
      · simp [hne] at hr
      · simp only [hne, Bool.false_eq_true, if_false] at hr
        obtain ⟨i, hi, hfi⟩ := List.mem_filterMap.mp hr
        obtain ⟨fv, hfv, hbg⟩ := Option.map_eq_some'.mp hfi
        subst hbg
        have hrange : 0 ≤ 196 / 100 * ((st.rmse_metadata model_key).getD 5) := by
          cases hm : st.rmse_metadata model_key with
          | none => norm_num
          | some v => exact mul_nonneg (by norm_num) (hmeta model_key v hm)
        have hc : WaterPredictor.calculate_prediction_confidence
            (st.predictFn model_key fv) (st.rmse_metadata model_key)
            = (st.predictFn model_key fv
                - 196 / 100 * ((st.rmse_metadata model_key).getD 5),
               st.predictFn model_key fv
                + 196 / 100 * ((st.rmse_metadata model_key).getD 5)) := rfl
        dsimp only
        rw [hc]
        constructor
        · exact WaterPredictor.round2_mono (by linarith)
        · exact WaterPredictor.round2_mono (by linarith)

/-- The concrete prediction record produced by the 1-month run used to
witness C4 (fields written as the pipeline computes them: model output 10,
metadata RMSE 2). -/
def c4_rec : WaterPredictor.PredRecord :=
  { date := ⟨2024, 1, 1⟩, year := 2024, month := 1,
    predicted_water_level := WaterPredictor.round2 10,
    confidence_lower := WaterPredictor.round2 (10 - 196 / 100 * 2),
    confidence_upper := WaterPredictor.round2 (10 + 196 / 100 * 2),
    prediction_quality := WaterPredictor.assess_prediction_quality 10 [hrec],
    season := "Winter" }

/-- Witness for C4 at a concrete 1-month run (RMSE 2 in metadata). -/
theorem C4_confidence_interval_witness :
    c4_rec.confidence_lower ≤ c4_rec.predicted_water_level ∧
    c4_rec.predicted_water_level ≤ c4_rec.confidence_upper :=
  C4_confidence_interval env_const pst_simple "Gujarat" "Rajkot" 1
    (some ⟨2024, 1, 1⟩) ⟨2025, 1, 1⟩ [hrec] c4_rec
    (fun k v hv => by
      have h2 : v = 2 := by simpa [pst_simple] using hv.symm
      rw [h2]; norm_num)
    (by
      have h : (WaterPredictor.predict_water_levels env_const pst_simple "Gujarat"
          "Rajkot" 1 (some ⟨2024, 1, 1⟩) ⟨2025, 1, 1⟩ [hrec]).predictions
          = [c4_rec] := rfl
      rw [h]
      exact List.mem_singleton.mpr rfl)

/-! ### Claim C6 -/

/-- A predictor state whose category vocabulary lacks the `'Unknown'`
bucket (training saw only non-null categories `Critical` and `Safe`). -/
def pst_no_unknown : WaterPredictor.PredictorState :=
  { models := ["Gujarat"], disk := [],
    predictFn := fun _ _ => 10,
    rmse_metadata := fun _ => none,
    feature_columns := ["year"],
    le_category := some ["Critical", "Safe"] }

/-- The historical row whose category was never seen in training. -/
def hrec_unseen : Record :=
  { water_level := some 10, year := some 2020, month := some 6,
    latitude := some 20, longitude := some 78,
    category := some "Over-Exploited" }

set_option maxRecDepth 8000 in
/-- Claim C6 is false as stated: when the training vocabulary has no
`'Unknown'` entry (it gets one only if training saw a missing or literal
`'Unknown'` category), an unseen category is *not* encoded into a reserved
bucket — both `transform` calls raise, feature construction for the step
fails, and the step is silently dropped (no exception reaches the caller:
the call still returns success, but with zero predictions here). -/
theorem C6_counterexample :
    WaterPredictor.encode_with_unknown ["Critical", "Safe"] "Over-Exploited" = none ∧
    (WaterPredictor.predict_water_levels env_const pst_no_unknown "Gujarat" "Rajkot" 1
      (some ⟨2024, 1, 1⟩) ⟨2025, 1, 1⟩ [hrec_unseen]).success = true ∧
    (WaterPredictor.predict_water_levels env_const pst_no_unknown "Gujarat" "Rajkot" 1
      (some ⟨2024, 1, 1⟩) ⟨2025, 1, 1⟩ [hrec_unseen]).predictions = [] := by
  refine ⟨rfl, ?_, ?_⟩ <;> decide

/-- Claim C6 (amended): forecasting with an unseen category never raises to
the caller — the call still returns `success = true` whenever a model
resolves and history exists — and the category resolves to the `'Unknown'`
encoder bucket provided `'Unknown'` is in the training vocabulary;
otherwise the affected step is dropped from the results instead. -/
theorem C6_amended_unseen_category :
    (∀ (classes : List String) (v : String), "Unknown" ∈ classes → v ∉ classes →
      WaterPredictor.encode_with_unknown classes v
        = WaterPredictor.le_transform classes "Unknown" ∧
      (WaterPredictor.encode_with_unknown classes v).isSome) ∧
    (∀ (env : Env) (st : WaterPredictor.PredictorState) (s d : String) (m : ℕ)
        (t : Option Date) (now : Date) (h : List Record) (k : String),
      WaterPredictor.resolve_model st s = some k → h.isEmpty = false →
      (WaterPredictor.predict_water_levels env st s d m t now h).success = true) := by
  constructor
  · intro classes v hU hv
    have hnone : WaterPredictor.le_transform classes v = none :=
      WaterPredictor.le_transform_eq_none_of_not_mem hv
    constructor
    · unfold WaterPredictor.encode_with_unknown
      rw [hnone]
    · unfold WaterPredictor.encode_with_unknown
      rw [hnone]
      exact (WaterPredictor.le_transform_isSome_iff classes "Unknown").mpr hU
  · intro env st s d m t now h k hres hne
    unfold WaterPredictor.predict_water_levels
    rw [hres]
    simp [hne]

/-- Witness for C6 (amended): with `'Unknown'` in the vocabulary the unseen
category encodes to the `'Unknown'` bucket, and a resolvable call with
nonempty history reports success. -/
theorem C6_amended_unseen_category_witness :
    (WaterPredictor.encode_with_unknown ["Safe", "Unknown"] "Over-Exploited").isSome = true ∧
    (WaterPredictor.predict_water_levels env_const pst_simple "Gujarat" "Rajkot" 1
      (some ⟨2024, 1, 1⟩) ⟨2025, 1, 1⟩ [hrec]).success = true := by
  constructor
  · exact (C6_amended_unseen_category.1 ["Safe", "Unknown"] "Over-Exploited"
      (by decide) (by decide)).2
  · exact C6_amended_unseen_category.2 env_const pst_simple "Gujarat" "Rajkot" 1
      (some ⟨2024, 1, 1⟩) ⟨2025, 1, 1⟩ [hrec] "Gujarat" (by decide) (by decide)
